import Mathlib

/-!
Shallow embedding of `src/oml_output/Foo.py`, the generated record class
`Foo` with slots `_meow`, `_hello`, `_isTrue`, a read-only property `meow`,
and read/write properties `hello` and `isTrue`.

Python is dynamically typed and CPython does not enforce the annotations
`meow: int`, `hello: str`, `isTrue: bool` at runtime, so slots are modelled
as holding arbitrary runtime values (`PyVal`).  Attribute assignment on an
instance is modelled by `Foo.setattr`, following CPython lookup for a class
with `__slots__` and property descriptors: assigning to a property with a
setter calls the setter, assigning to a property without a setter raises
`AttributeError`, assigning to a slot name writes the slot directly, and
assigning any other name raises `AttributeError` (no `__dict__`).
-/

namespace OML

/-- A Python runtime value of one of the three kinds the record uses. -/
inductive PyVal where
  | int (n : Int)
  | str (s : String)
  | bool (b : Bool)
deriving DecidableEq, Repr

def PyVal.isInt : PyVal → Bool
  | .int _ => true
  | _ => false

def PyVal.isStr : PyVal → Bool
  | .str _ => true
  | _ => false

def PyVal.isBool : PyVal → Bool
  | .bool _ => true
  | _ => false

/-- The runtime errors attribute access on `Foo` can raise. -/
inductive PyErr where
  | attributeError
deriving DecidableEq, Repr

/-- The instance state of `Foo`: exactly the three `__slots__`. -/
structure Foo where
  _meow : PyVal
  _hello : PyVal
  _isTrue : PyVal
deriving DecidableEq, Repr

/-- `Foo.__init__`: stores the three arguments into the slots.  CPython does
not check the annotations, so any `PyVal` is accepted and stored as-is. -/
def Foo.init (meow hello isTrue : PyVal) : Foo :=
  { _meow := meow, _hello := hello, _isTrue := isTrue }

/-- Property getter `Foo.meow`: returns `self._meow`. -/
def Foo.meow (f : Foo) : PyVal := f._meow

/-- Property getter `Foo.hello`: returns `self._hello`. -/
def Foo.hello (f : Foo) : PyVal := f._hello

/-- Property getter `Foo.isTrue`: returns `self._isTrue`. -/
def Foo.isTrue (f : Foo) : PyVal := f._isTrue

/-- Property setter `Foo.hello`: `self._hello = value`, no type check. -/
def Foo.setHello (f : Foo) (value : PyVal) : Foo :=
  { f with _hello := value }

/-- Property setter `Foo.isTrue`: `self._isTrue = value`, no type check. -/
def Foo.setIsTrue (f : Foo) (value : PyVal) : Foo :=
  { f with _isTrue := value }

/-- CPython attribute assignment `obj.<name> = value` on a `Foo` instance:
property setters where defined, `AttributeError` for the setter-less
property `meow`, direct slot writes for the three slot names, and
`AttributeError` for every other name (`__slots__` means no `__dict__`). -/
def Foo.setattr (f : Foo) (name : String) (value : PyVal) : Except PyErr Foo :=
  if name = "meow" then .error .attributeError
  else if name = "hello" then .ok (f.setHello value)
  else if name = "isTrue" then .ok (f.setIsTrue value)
  else if name = "_meow" then .ok { f with _meow := value }
  else if name = "_hello" then .ok { f with _hello := value }
  else if name = "_isTrue" then .ok { f with _isTrue := value }
  else .error .attributeError

/-- One call of the public accessor/mutator interface of `Foo`. -/
inductive Op where
  | getMeow
  | getHello
  | getIsTrue
  | setHello (value : PyVal)
  | setIsTrue (value : PyVal)
deriving DecidableEq, Repr

/-- The state after one public operation (getters do not change state). -/
def Foo.applyOp (f : Foo) : Op → Foo
  | .getMeow => f
  | .getHello => f
  | .getIsTrue => f
  | .setHello v => f.setHello v
  | .setIsTrue v => f.setIsTrue v

/-- The state after a sequence of public operations. -/
def Foo.runOps (f : Foo) : List Op → Foo
  | [] => f
  | op :: ops => (f.applyOp op).runOps ops

lemma Foo.applyOp_meow (f : Foo) (op : Op) : (f.applyOp op).meow = f.meow := by
  cases op <;> rfl

lemma Foo.runOps_meow (f : Foo) (ops : List Op) :
    (f.runOps ops).meow = f.meow := by
  induction ops generalizing f with
  | nil => rfl
  | cons op ops ih =>
      rw [Foo.runOps, ih, Foo.applyOp_meow]

/-- C1: immediately after `Foo.init a b c` with an integer, a string and a
boolean, the three getters return exactly the constructed values. -/
theorem init_getters (a : Int) (b : String) (c : Bool) :
    (Foo.init (.int a) (.str b) (.bool c)).meow = .int a ∧
    (Foo.init (.int a) (.str b) (.bool c)).hello = .str b ∧
    (Foo.init (.int a) (.str b) (.bool c)).isTrue = .bool c :=
  ⟨rfl, rfl, rfl⟩

/-- C2: no sequence of public operations (accessor calls and the two
mutators) changes the value `meow` returns from its constructed value. -/
theorem meow_immutable (a b c : PyVal) (ops : List Op) :
    ((Foo.init a b c).runOps ops).meow = a :=
  Foo.runOps_meow (Foo.init a b c) ops

/-- C3: after `setHello s`, the `hello` getter returns exactly `s`. -/
theorem setHello_get (f : Foo) (s : String) :
    (f.setHello (.str s)).hello = .str s :=
  rfl

/-- C4: after `setIsTrue b`, the `isTrue` getter returns exactly `b`. -/
theorem setIsTrue_get (f : Foo) (b : Bool) :
    (f.setIsTrue (.bool b)).isTrue = .bool b :=
  rfl

/-- C5: each mutator leaves the other two fields unchanged: `setHello`
preserves `meow` and `isTrue`, and `setIsTrue` preserves `meow` and
`hello`. -/
theorem setters_frame (f : Foo) (v w : PyVal) :
    (f.setHello v).meow = f.meow ∧
    (f.setHello v).isTrue = f.isTrue ∧
    (f.setIsTrue w).meow = f.meow ∧
    (f.setIsTrue w).hello = f.hello :=
  ⟨rfl, rfl, rfl, rfl⟩

/-- C6 counterexample: constructing with a string where the integer field
is expected raises no error and yields a fully usable instance whose
getters return the supplied (mistyped) values. -/
theorem init_mistyped_accepted :
    (PyVal.str "oops").isInt = false ∧
    (Foo.init (.str "oops") (.str "hi") (.bool true)).meow = .str "oops" ∧
    (Foo.init (.str "oops") (.str "hi") (.bool true)).hello = .str "hi" ∧
    (Foo.init (.str "oops") (.str "hi") (.bool true)).isTrue = .bool true :=
  ⟨rfl, rfl, rfl, rfl⟩

/-- C6 amended: construction performs no runtime type check: even when the
first argument is not an integer, the instance is produced normally and
every getter returns the argument as supplied. -/
theorem init_unchecked (a b c : PyVal) (h : a.isInt = false) :
    (Foo.init a b c).meow = a ∧
    (Foo.init a b c).hello = b ∧
    (Foo.init a b c).isTrue = c :=
  ⟨rfl, rfl, rfl⟩

/-- Witness for `init_unchecked` at a concrete mistyped input. -/
theorem init_unchecked_witness :
    (Foo.init (.str "x") (.int 0) (.int 1)).meow = .str "x" ∧
    (Foo.init (.str "x") (.int 0) (.int 1)).hello = .int 0 ∧
    (Foo.init (.str "x") (.int 0) (.int 1)).isTrue = .int 1 :=
  init_unchecked (.str "x") (.int 0) (.int 1) rfl

/-- C7 counterexample: `setHello` with a boolean (not a string) raises no
error and silently stores the ill-typed value, which `hello` then
returns. -/
theorem setHello_mistyped_stored :
    (PyVal.bool false).isStr = false ∧
    ((Foo.init (.int 0) (.str "hi") (.bool true)).setHello
        (.bool false)).hello = .bool false :=
  ⟨rfl, rfl⟩

/-- C7 amended: the mutators perform no runtime type check: `setHello`
stores any value even when it is not a string, and `setIsTrue` stores any
value even when it is not a boolean; the getters then return the stored
ill-typed values. -/
theorem setters_unchecked (f : Foo) (v w : PyVal)
    (hv : v.isStr = false) (hw : w.isBool = false) :
    (f.setHello v).hello = v ∧ (f.setIsTrue w).isTrue = w :=
  ⟨rfl, rfl⟩

/-- Witness for `setters_unchecked` at concrete ill-typed inputs. -/
theorem setters_unchecked_witness :
    ((Foo.init (.int 0) (.str "a") (.bool true)).setHello
        (.int 7)).hello = .int 7 ∧
    ((Foo.init (.int 0) (.str "a") (.bool true)).setIsTrue
        (.str "no")).isTrue = .str "no" :=
  setters_unchecked (Foo.init (.int 0) (.str "a") (.bool true))
    (.int 7) (.str "no") rfl rfl

/-- C8: assigning to the public property name `meow` on an existing
instance raises `AttributeError` (the property has no setter) and the
stored value is untouched. -/
theorem setattr_meow_rejected (f : Foo) (v : PyVal) :
    f.setattr "meow" v = .error .attributeError :=
  rfl

/-- C9: assigning any attribute name outside the declared field set (the
three property names and the three slot names) raises `AttributeError`;
the instance cannot be extended with new state. -/
theorem setattr_unknown_rejected (f : Foo) (name : String) (v : PyVal)
    (h1 : name ≠ "meow") (h2 : name ≠ "hello") (h3 : name ≠ "isTrue")
    (h4 : name ≠ "_meow") (h5 : name ≠ "_hello") (h6 : name ≠ "_isTrue") :
    f.setattr name v = .error .attributeError := by
  simp [Foo.setattr, h1, h2, h3, h4, h5, h6]

/-- Witness for `setattr_unknown_rejected` at a concrete unknown name. -/
theorem setattr_unknown_rejected_witness :
    (Foo.init (.int 1) (.str "a") (.bool true)).setattr "extra"
        (.int 5) = .error .attributeError :=
  setattr_unknown_rejected (Foo.init (.int 1) (.str "a") (.bool true))
    "extra" (.int 5) (by decide) (by decide) (by decide) (by decide)
    (by decide) (by decide)

/-- C10: assigning directly to the underlying slot `_meow` succeeds with
no error, and the `meow` getter then returns the newly assigned value. -/
theorem setattr_slot_meow_bypasses (f : Foo) (v : PyVal) :
    ∃ g : Foo, f.setattr "_meow" v = .ok g ∧ g.meow = v :=
  ⟨{ f with _meow := v }, rfl, rfl⟩

end OML
